import Mathlib

/-!
Shallow embedding of the Unity DX11 native rendering plugin
(`RenderingPlugin/RenderingPlugin.cpp`).

The C++ source is a collection of global variables mutated by exported
entry points.  The embedding gathers the globals into `PluginState` and
turns every entry point into a pure function from state to state,
additionally returning the list of externally observable effects
(GPU API calls and `DebugLog` lines) the call performs.

External, host-provided behaviour (the filesystem consulted by
`LoadFileIntoBuffer`, success of the two `Create*Shader` device calls,
the renderer reported by `s_Graphics->GetRenderer()`, and the
width/height stored in a texture's descriptor) is packaged into an
environment record `Env`.  Creation of buffers and pipeline-state
objects is modelled as always succeeding and yielding a fresh handle
id, mirroring the fact that the source never inspects their HRESULTs.

Numeric shader/plasma/matrix computations are modelled over an
arbitrary linear ordered field `α` (instantiated with `ℚ` for
executable witnesses and with `ℝ` for trigonometric facts), with the
C library functions `sinf`, `cosf`, `sqrtf` passed in as function
parameters.
-/

set_option linter.unusedVariables false
set_option linter.unusedSectionVars false

/-- `UnityGfxRenderer` as used by the plugin: the null renderer, D3D11
(the one backend with code in the source), or any other renderer value
from the Unity header (all treated alike by the plugin). -/
inductive UnityGfxRenderer where
  | kUnityGfxRendererNull
  | kUnityGfxRendererD3D11
  | kUnityGfxRendererOther
  deriving DecidableEq

/-- The four device lifecycle events of `UnityGfxDeviceEventType`. -/
inductive UnityGfxDeviceEventType where
  | kUnityGfxDeviceEventInitialize
  | kUnityGfxDeviceEventShutdown
  | kUnityGfxDeviceEventBeforeReset
  | kUnityGfxDeviceEventAfterReset
  deriving DecidableEq

/-- `struct MyVertex { float x, y, z; unsigned int color; }`. -/
structure MyVertex (α : Type) where
  x : α
  y : α
  z : α
  color : Nat
  deriving DecidableEq

/-- One observable GPU API call.  `create*` and `release` carry the
handle id they create or destroy; context acquisition/release and the
draw-path calls mirror the D3D11 calls made by the source. -/
inductive GpuCmd (α : Type) where
  | createBuffer (id : Nat)
  | createVertexShader (id : Nat)
  | createPixelShader (id : Nat)
  | createInputLayout (id : Nat)
  | createRasterizerState (id : Nat)
  | createDepthStencilState (id : Nat)
  | createBlendState (id : Nat)
  | release (id : Nat)
  | getImmediateContext
  | releaseContext
  | omSetDepthStencilState (h : Option Nat)
  | rsSetState (h : Option Nat)
  | omSetBlendState (h : Option Nat)
  | updateConstantBuffer (h : Option Nat) (matrix : List α)
  | vsSetConstantBuffers (h : Option Nat)
  | vsSetShader (h : Option Nat)
  | psSetShader (h : Option Nat)
  | updateVertexBuffer (h : Option Nat) (verts : List (MyVertex α))
  | iaSetInputLayout (h : Option Nat)
  | iaSetPrimitiveTopology
  | iaSetVertexBuffers (h : Option Nat)
  | draw (vertexCount startVertex : Nat)
  | updateTexture (tex : Nat) (data : List Int)
  deriving DecidableEq

/-- An observable effect: a GPU API call or a `DebugLog` line. -/
inductive Eff (α : Type) where
  | gpu (c : GpuCmd α)
  | log (msg : String)
  deriving DecidableEq

/-- The plugin's global variables, gathered into one state record.
`nextId` is the allocator for fresh GPU handle ids (a handle in the
model stands for a non-NULL COM pointer; `none` stands for NULL). -/
structure PluginState (α : Type) where
  g_Time : α
  s_UnityStreamingAssetsPath : String
  s_DeviceType : UnityGfxRenderer
  g_TexturePointer : Option Nat
  g_D3D11Device : Option Unit
  g_D3D11VB : Option Nat
  g_D3D11CB : Option Nat
  g_D3D11VertexShader : Option Nat
  g_D3D11PixelShader : Option Nat
  g_D3D11InputLayout : Option Nat
  g_D3D11RasterState : Option Nat
  g_D3D11BlendState : Option Nat
  g_D3D11DepthState : Option Nat
  nextId : Nat
  deriving DecidableEq

/-- Host-provided environment: the filesystem seen by
`LoadFileIntoBuffer` (`none` = `fopen` fails), whether the device's
`CreateVertexShader` / `CreatePixelShader` calls succeed, the renderer
returned by `s_Graphics->GetRenderer()`, and the (width, height) a
texture's `GetDesc` reports for a given texture handle. -/
structure Env where
  files : String → Option (List UInt8)
  vsOk : Bool
  psOk : Bool
  hostRenderer : UnityGfxRenderer
  texDesc : Nat → Nat × Nat

/-- The zero-initialized C globals at process start. -/
def initialState (α : Type) [LinearOrderedField α] : PluginState α :=
  { g_Time := 0
    s_UnityStreamingAssetsPath := ""
    s_DeviceType := UnityGfxRenderer.kUnityGfxRendererNull
    g_TexturePointer := none
    g_D3D11Device := none
    g_D3D11VB := none
    g_D3D11CB := none
    g_D3D11VertexShader := none
    g_D3D11PixelShader := none
    g_D3D11InputLayout := none
    g_D3D11RasterState := none
    g_D3D11BlendState := none
    g_D3D11DepthState := none
    nextId := 0 }

variable {α : Type} [LinearOrderedField α]

/-- `SetTimeFromUnity(float t) { g_Time = t; }` -/
def SetTimeFromUnity (t : α) (s : PluginState α) : PluginState α :=
  { s with g_Time := t }

/-- `SetUnityStreamingAssetsPath(const char* path)` -/
def SetUnityStreamingAssetsPath (path : String) (s : PluginState α) : PluginState α :=
  { s with s_UnityStreamingAssetsPath := path }

/-- `SetTextureFromUnity(void* texturePtr)` — just remembers the pointer. -/
def SetTextureFromUnity (texturePtr : Option Nat) (s : PluginState α) : PluginState α :=
  { s with g_TexturePointer := texturePtr }

/-- `LoadFileIntoBuffer`: on success returns the file's bytes; on a
failed `fopen` logs `"Failed to find <name>"` and leaves the caller's
buffer empty. -/
def LoadFileIntoBuffer (env : Env) (fileName : String) :
    Bool × List UInt8 × List (Eff α) :=
  match env.files fileName with
  | some data => (true, data, [])
  | none => (false, [], [Eff.log ("Failed to find " ++ fileName)])

/-- Path of the compiled vertex shader below the streaming-assets root. -/
def vertexShaderFile (base : String) : String :=
  base ++ "/Shaders/DX11_9_1/SimpleVertexShader.cso"

/-- Path of the compiled pixel shader below the streaming-assets root. -/
def pixelShaderFile (base : String) : String :=
  base ++ "/Shaders/DX11_9_1/SimplePixelShader.cso"

/-- `EnsureD3D11ResourcesAreCreated`: returns `true` immediately if the
vertex shader already exists; returns `false` if the asset path is
still empty; otherwise creates the vertex and constant buffers, loads
the two shader blobs, creates the shader objects (when both blobs are
non-empty and the device call succeeds), the input layout (when the
vertex shader exists and its blob is non-empty), and the three
pipeline-state objects, then returns `true` unconditionally. -/
def EnsureD3D11ResourcesAreCreated (env : Env) (s : PluginState α) :
    Bool × PluginState α × List (Eff α) :=
  if s.g_D3D11VertexShader.isSome then
    (true, s, [])
  else if s.s_UnityStreamingAssetsPath = "" then
    (false, s, [])
  else
    let vb := s.nextId
    let s1 := { s with g_D3D11VB := some vb, nextId := vb + 1 }
    let cb := s1.nextId
    let s2 := { s1 with g_D3D11CB := some cb, nextId := cb + 1 }
    let e0 : List (Eff α) :=
      [Eff.gpu (GpuCmd.createBuffer vb), Eff.gpu (GpuCmd.createBuffer cb)]
    let lv : Bool × List UInt8 × List (Eff α) :=
      LoadFileIntoBuffer env (vertexShaderFile s.s_UnityStreamingAssetsPath)
    let lp : Bool × List UInt8 × List (Eff α) :=
      LoadFileIntoBuffer env (pixelShaderFile s.s_UnityStreamingAssetsPath)
    let vertexShader := lv.2.1
    let pixelShader := lp.2.1
    let r3 : PluginState α × List (Eff α) :=
      if 0 < vertexShader.length ∧ 0 < pixelShader.length then
        let r3a : PluginState α × List (Eff α) :=
          if env.vsOk then
            ({ s2 with g_D3D11VertexShader := some s2.nextId, nextId := s2.nextId + 1 },
             [Eff.gpu (GpuCmd.createVertexShader s2.nextId)])
          else
            (s2, [Eff.log "Failed to create vertex shader.\n"])
        let r3b : PluginState α × List (Eff α) :=
          if env.psOk then
            ({ r3a.1 with g_D3D11PixelShader := some r3a.1.nextId, nextId := r3a.1.nextId + 1 },
             [Eff.gpu (GpuCmd.createPixelShader r3a.1.nextId)])
          else
            (r3a.1, [Eff.log "Failed to create pixel shader.\n"])
        (r3b.1, r3a.2 ++ r3b.2)
      else
        (s2, [Eff.log "Failed to load vertex or pixel shader.\n"])
    let s3 := r3.1
    let r4 : PluginState α × List (Eff α) :=
      if s3.g_D3D11VertexShader.isSome ∧ 0 < vertexShader.length then
        ({ s3 with g_D3D11InputLayout := some s3.nextId, nextId := s3.nextId + 1 },
         [Eff.gpu (GpuCmd.createInputLayout s3.nextId)])
      else
        (s3, [])
    let s4 := r4.1
    let rs := s4.nextId
    let s5 := { s4 with g_D3D11RasterState := some rs, nextId := rs + 1 }
    let ds := s5.nextId
    let s6 := { s5 with g_D3D11DepthState := some ds, nextId := ds + 1 }
    let bs := s6.nextId
    let s7 := { s6 with g_D3D11BlendState := some bs, nextId := bs + 1 }
    let e3 : List (Eff α) :=
      [Eff.gpu (GpuCmd.createRasterizerState rs),
       Eff.gpu (GpuCmd.createDepthStencilState ds),
       Eff.gpu (GpuCmd.createBlendState bs)]
    (true, s7, e0 ++ lv.2.2 ++ lp.2.2 ++ r3.2 ++ r4.2 ++ e3)

/-- `SAFE_RELEASE(a)`: if the handle is non-NULL, release it and set it
to NULL. -/
def safeRelease (h : Option Nat) : Option Nat × List (Eff α) :=
  match h with
  | some id => (none, [Eff.gpu (GpuCmd.release id)])
  | none => (none, [])

/-- `ReleaseD3D11Resources`: `SAFE_RELEASE` of all eight members of the
resource set, in source order. -/
def ReleaseD3D11Resources (s : PluginState α) : PluginState α × List (Eff α) :=
  let rvb := safeRelease (α := α) s.g_D3D11VB
  let rcb := safeRelease (α := α) s.g_D3D11CB
  let rvs := safeRelease (α := α) s.g_D3D11VertexShader
  let rps := safeRelease (α := α) s.g_D3D11PixelShader
  let ril := safeRelease (α := α) s.g_D3D11InputLayout
  let rrs := safeRelease (α := α) s.g_D3D11RasterState
  let rbs := safeRelease (α := α) s.g_D3D11BlendState
  let rds := safeRelease (α := α) s.g_D3D11DepthState
  ({ s with
      g_D3D11VB := rvb.1
      g_D3D11CB := rcb.1
      g_D3D11VertexShader := rvs.1
      g_D3D11PixelShader := rps.1
      g_D3D11InputLayout := ril.1
      g_D3D11RasterState := rrs.1
      g_D3D11BlendState := rbs.1
      g_D3D11DepthState := rds.1 },
   rvb.2 ++ rcb.2 ++ rvs.2 ++ rps.2 ++ ril.2 ++ rrs.2 ++ rbs.2 ++ rds.2)

/-- `DoEventGraphicsDeviceD3D11`: on Initialize, captures the device
and immediately attempts resource creation (discarding the result); on
Shutdown, releases all resources; otherwise does nothing. -/
def DoEventGraphicsDeviceD3D11 (env : Env) (eventType : UnityGfxDeviceEventType)
    (s : PluginState α) : PluginState α × List (Eff α) :=
  if eventType = UnityGfxDeviceEventType.kUnityGfxDeviceEventInitialize then
    let s1 := { s with g_D3D11Device := some () }
    let r := EnsureD3D11ResourcesAreCreated env s1
    (r.2.1, r.2.2)
  else if eventType = UnityGfxDeviceEventType.kUnityGfxDeviceEventShutdown then
    ReleaseD3D11Resources s
  else
    (s, [])

/-- `OnGraphicsDeviceEvent`: logs the transition; on Initialize adopts
the host's renderer as `s_DeviceType`; on Shutdown resets
`s_DeviceType` to null and clears the texture pointer; then delegates
to `DoEventGraphicsDeviceD3D11` whenever the relevant device type
(the new one on Initialize, the previous one otherwise) is D3D11. -/
def OnGraphicsDeviceEvent (env : Env) (eventType : UnityGfxDeviceEventType)
    (s : PluginState α) : PluginState α × List (Eff α) :=
  match eventType with
  | UnityGfxDeviceEventType.kUnityGfxDeviceEventInitialize =>
    let e0 : List (Eff α) := [Eff.log "OnGraphicsDeviceEvent(Initialize).\n"]
    let s1 := { s with s_DeviceType := env.hostRenderer }
    if env.hostRenderer = UnityGfxRenderer.kUnityGfxRendererD3D11 then
      let r := DoEventGraphicsDeviceD3D11 env
        UnityGfxDeviceEventType.kUnityGfxDeviceEventInitialize s1
      (r.1, e0 ++ r.2)
    else
      (s1, e0)
  | UnityGfxDeviceEventType.kUnityGfxDeviceEventShutdown =>
    let e0 : List (Eff α) := [Eff.log "OnGraphicsDeviceEvent(Shutdown).\n"]
    let cur := s.s_DeviceType
    let s1 := { s with
      s_DeviceType := UnityGfxRenderer.kUnityGfxRendererNull
      g_TexturePointer := none }
    if cur = UnityGfxRenderer.kUnityGfxRendererD3D11 then
      let r := DoEventGraphicsDeviceD3D11 env
        UnityGfxDeviceEventType.kUnityGfxDeviceEventShutdown s1
      (r.1, e0 ++ r.2)
    else
      (s1, e0)
  | UnityGfxDeviceEventType.kUnityGfxDeviceEventBeforeReset =>
    let e0 : List (Eff α) := [Eff.log "OnGraphicsDeviceEvent(BeforeReset).\n"]
    if s.s_DeviceType = UnityGfxRenderer.kUnityGfxRendererD3D11 then
      let r := DoEventGraphicsDeviceD3D11 env
        UnityGfxDeviceEventType.kUnityGfxDeviceEventBeforeReset s
      (r.1, e0 ++ r.2)
    else
      (s, e0)
  | UnityGfxDeviceEventType.kUnityGfxDeviceEventAfterReset =>
    let e0 : List (Eff α) := [Eff.log "OnGraphicsDeviceEvent(AfterReset).\n"]
    if s.s_DeviceType = UnityGfxRenderer.kUnityGfxRendererD3D11 then
      let r := DoEventGraphicsDeviceD3D11 env
        UnityGfxDeviceEventType.kUnityGfxDeviceEventAfterReset s
      (r.1, e0 ++ r.2)
    else
      (s, e0)

/-- `SetDefaultGraphicsState`: in the D3D11 case, acquires the
immediate context, binds the depth-stencil, rasterizer and blend
states, and releases the context; otherwise does nothing. -/
def SetDefaultGraphicsState (s : PluginState α) : List (Eff α) :=
  if s.s_DeviceType = UnityGfxRenderer.kUnityGfxRendererD3D11 then
    [Eff.gpu GpuCmd.getImmediateContext,
     Eff.gpu (GpuCmd.omSetDepthStencilState s.g_D3D11DepthState),
     Eff.gpu (GpuCmd.rsSetState s.g_D3D11RasterState),
     Eff.gpu (GpuCmd.omSetBlendState s.g_D3D11BlendState),
     Eff.gpu GpuCmd.releaseContext]
  else
    []

/-- C truncation of a real value to `int` (round toward zero). -/
def ctrunc [FloorRing α] (x : α) : Int :=
  if 0 ≤ x then ⌊x⌋ else ⌈x⌉

/-- The "plasma" value of one pixel: the four sine waves of
`FillTextureFromCode`, summed, truncated to `int` and divided by 4
with C's truncating integer division. -/
def plasmaValue [FloorRing α] (sinf sqrtf : α → α) (t : α) (x y : Nat) : Int :=
  Int.tdiv
    (ctrunc
      ((127 + 127 * sinf ((x : α) / 7 + t)) +
       (127 + 127 * sinf ((y : α) / 5 - t)) +
       (127 + 127 * sinf (((x : α) + (y : α)) / 6 - t)) +
       (127 + 127 * sinf (sqrtf (((x * x + y * y : Nat) : α)) / 4 - t))))
    4

/-- C conversion of an `int` pixel value to `unsigned char`. -/
def toByte (v : Int) : Int := Int.emod v 256

/-- `FillTextureFromCode`: recomputes the whole `width × height`
buffer; each pixel is four bytes, all equal to the plasma value at
that pixel, rows laid out consecutively (the caller passes
`stride = width*4`, so the buffer is tightly packed). -/
def FillTextureFromCode [FloorRing α] (sinf sqrtf : α → α) (time : α)
    (width height : Nat) : List Int :=
  let t := time * 4
  (List.range height).flatMap fun y =>
    (List.range width).flatMap fun x =>
      let vv := plasmaValue sinf sqrtf t x y
      [toByte vv, toByte vv, toByte vv, toByte vv]

/-- `DoRendering`: in the D3D11 case, when `EnsureD3D11ResourcesAreCreated`
returns `true`, uploads the world matrix and the vertices, binds
everything and draws; then, if a texture pointer is set, regenerates
its pixels with `FillTextureFromCode` and uploads them. -/
def DoRendering [FloorRing α] (sinf sqrtf : α → α) (env : Env)
    (worldMatrix identityMatrix projectionMatrix : List α)
    (verts : List (MyVertex α)) (s : PluginState α) :
    PluginState α × List (Eff α) :=
  if s.s_DeviceType = UnityGfxRenderer.kUnityGfxRendererD3D11 then
    let r := EnsureD3D11ResourcesAreCreated env s
    if r.1 then
      let s1 := r.2.1
      let drawEffs : List (Eff α) :=
        [Eff.gpu GpuCmd.getImmediateContext,
         Eff.gpu (GpuCmd.updateConstantBuffer s1.g_D3D11CB worldMatrix),
         Eff.gpu (GpuCmd.vsSetConstantBuffers s1.g_D3D11CB),
         Eff.gpu (GpuCmd.vsSetShader s1.g_D3D11VertexShader),
         Eff.gpu (GpuCmd.psSetShader s1.g_D3D11PixelShader),
         Eff.gpu (GpuCmd.updateVertexBuffer s1.g_D3D11VB verts),
         Eff.gpu (GpuCmd.iaSetInputLayout s1.g_D3D11InputLayout),
         Eff.gpu GpuCmd.iaSetPrimitiveTopology,
         Eff.gpu (GpuCmd.iaSetVertexBuffers s1.g_D3D11VB),
         Eff.gpu (GpuCmd.draw 3 0)]
      let texEffs : List (Eff α) :=
        match s1.g_TexturePointer with
        | some tex =>
          let wh := env.texDesc tex
          [Eff.gpu (GpuCmd.updateTexture tex
            (FillTextureFromCode sinf sqrtf s1.g_Time wh.1 wh.2))]
        | none => []
      (s1, r.2.2 ++ drawEffs ++ texEffs ++ [Eff.gpu GpuCmd.releaseContext])
    else
      (r.2.1, r.2.2)
  else
    (s, [])

/-- The colored triangle built by `OnRenderEvent`. -/
def triangleVerts : List (MyVertex α) :=
  [{ x := -(1/2), y := -(1/4), z := 0, color := 0xFFff0000 },
   { x := 1/2, y := -(1/4), z := 0, color := 0xFF00ff00 },
   { x := 0, y := 1/2, z := 0, color := 0xFF0000ff }]

/-- The 4×4 identity matrix used for both view and projection,
row-major as in the source. -/
def identityMatrix4 : List α :=
  [1, 0, 0, 0,
   0, 1, 0, 0,
   0, 0, 1, 0,
   0, 0, 0, 1]

/-- The world matrix computed by `OnRenderEvent` from the shared time:
`phi = g_Time`, rotation entries from `cosf`/`sinf`, a 0.7 entry in
the depth column of the last row, row-major as in the source. -/
def worldMatrixAt (cosf sinf : α → α) (time : α) : List α :=
  let phi := time
  let cosPhi := cosf phi
  let sinPhi := sinf phi
  [cosPhi, -sinPhi, 0, 0,
   sinPhi, cosPhi, 0, 0,
   0, 0, 1, 0,
   0, 0, 7/10, 1]

/-- `OnRenderEvent(eventID)`: returns immediately on the null device
type; otherwise builds the triangle and the three matrices, sets
default graphics state and calls `DoRendering`.  `eventID` is ignored. -/
def OnRenderEvent [FloorRing α] (cosf sinf sqrtf : α → α) (env : Env)
    (eventID : Int) (s : PluginState α) : PluginState α × List (Eff α) :=
  if s.s_DeviceType = UnityGfxRenderer.kUnityGfxRendererNull then
    (s, [])
  else
    let verts := triangleVerts (α := α)
    let worldMatrix := worldMatrixAt cosf sinf s.g_Time
    let identityMatrix := identityMatrix4 (α := α)
    let projectionMatrix := identityMatrix4 (α := α)
    let e1 := SetDefaultGraphicsState s
    let r := DoRendering sinf sqrtf env worldMatrix identityMatrix projectionMatrix verts s
    (r.1, e1 ++ r.2)

/-- Is a GPU command one of the seven `Create*` device calls? -/
def isCreateCmd : GpuCmd α → Bool
  | GpuCmd.createBuffer _ => true
  | GpuCmd.createVertexShader _ => true
  | GpuCmd.createPixelShader _ => true
  | GpuCmd.createInputLayout _ => true
  | GpuCmd.createRasterizerState _ => true
  | GpuCmd.createDepthStencilState _ => true
  | GpuCmd.createBlendState _ => true
  | _ => false

/-- Is a GPU command a resource `Release` (from `SAFE_RELEASE`)? -/
def isReleaseCmd : GpuCmd α → Bool
  | GpuCmd.release _ => true
  | _ => false

/-- Is a GPU command the `Draw` call? -/
def isDrawCmd : GpuCmd α → Bool
  | GpuCmd.draw _ _ => true
  | _ => false

/-- Is a GPU command the texture `UpdateSubresource` upload? -/
def isTextureUpdateCmd : GpuCmd α → Bool
  | GpuCmd.updateTexture _ _ => true
  | _ => false

/-- Count the GPU commands satisfying `p` in an effect list. -/
def countCmds (p : GpuCmd α → Bool) (effs : List (Eff α)) : Nat :=
  effs.countP fun e =>
    match e with
    | Eff.gpu c => p c
    | Eff.log _ => false

/-- Number of resource-creating device calls in an effect list. -/
def countCreates (effs : List (Eff α)) : Nat := countCmds isCreateCmd effs

/-- Number of resource `Release` calls in an effect list. -/
def countReleases (effs : List (Eff α)) : Nat := countCmds isReleaseCmd effs

/-- All eight members of the GPU resource set are NULL. -/
def allHandlesNone (s : PluginState α) : Prop :=
  s.g_D3D11VB = none ∧ s.g_D3D11CB = none ∧ s.g_D3D11VertexShader = none ∧
  s.g_D3D11PixelShader = none ∧ s.g_D3D11InputLayout = none ∧
  s.g_D3D11RasterState = none ∧ s.g_D3D11BlendState = none ∧
  s.g_D3D11DepthState = none

instance (s : PluginState α) : Decidable (allHandlesNone s) := by
  unfold allHandlesNone
  infer_instance

/-- 1 if the handle is non-NULL, else 0. -/
def optCount (h : Option Nat) : Nat := if h.isSome then 1 else 0

/-- Number of non-NULL members of the GPU resource set. -/
def liveHandles (s : PluginState α) : Nat :=
  optCount s.g_D3D11VB + optCount s.g_D3D11CB + optCount s.g_D3D11VertexShader +
  optCount s.g_D3D11PixelShader + optCount s.g_D3D11InputLayout +
  optCount s.g_D3D11RasterState + optCount s.g_D3D11BlendState +
  optCount s.g_D3D11DepthState

/-- Iterated calls of `EnsureD3D11ResourcesAreCreated`, threading the
state and concatenating the effects, as successive frames would. -/
def ensureIter (env : Env) : Nat → PluginState α → PluginState α × List (Eff α)
  | 0, s => (s, [])
  | n + 1, s =>
    let r := EnsureD3D11ResourcesAreCreated env s
    let rest := ensureIter env n r.2.1
    (rest.1, r.2.2 ++ rest.2)

/-- The bytes `LoadFileIntoBuffer` leaves in the caller's buffer: the
file's contents on success, the untouched empty buffer on failure. -/
def fileBytes (env : Env) (name : String) : List UInt8 :=
  match env.files name with
  | some d => d
  | none => []

/-- The shader-load step failed: at least one of the two blobs came
back empty (missing file, or a zero-length file). -/
def shaderLoadFailed (env : Env) (base : String) : Prop :=
  fileBytes env (vertexShaderFile base) = [] ∨ fileBytes env (pixelShaderFile base) = []

instance (env : Env) (base : String) : Decidable (shaderLoadFailed env base) := by
  unfold shaderLoadFailed
  infer_instance

/-- Modelled from the spec: a rotation about the viewing (Z) axis by
angle `t`, as a row-major 4×4 matrix. -/
noncomputable def specRotationZ (t : ℝ) : List ℝ :=
  [Real.cos t, -Real.sin t, 0, 0,
   Real.sin t, Real.cos t, 0, 0,
   0, 0, 1, 0,
   0, 0, 0, 1]

/-- Modelled from the spec: the fixed scale/translate on the depth
axis (the 0.7 entry, identity otherwise), row-major. -/
noncomputable def specDepthTransform : List ℝ :=
  [1, 0, 0, 0,
   0, 1, 0, 0,
   0, 0, 1, 0,
   0, 0, 7/10, 1]

/-- Row-major 4×4 matrix product of two 16-entry lists (used to state
the composition claim about the world matrix). -/
noncomputable def mat4mul (A B : List ℝ) : List ℝ :=
  match A, B with
  | [a00, a01, a02, a03, a10, a11, a12, a13,
     a20, a21, a22, a23, a30, a31, a32, a33],
    [b00, b01, b02, b03, b10, b11, b12, b13,
     b20, b21, b22, b23, b30, b31, b32, b33] =>
    [a00*b00 + a01*b10 + a02*b20 + a03*b30,
     a00*b01 + a01*b11 + a02*b21 + a03*b31,
     a00*b02 + a01*b12 + a02*b22 + a03*b32,
     a00*b03 + a01*b13 + a02*b23 + a03*b33,
     a10*b00 + a11*b10 + a12*b20 + a13*b30,
     a10*b01 + a11*b11 + a12*b21 + a13*b31,
     a10*b02 + a11*b12 + a12*b22 + a13*b32,
     a10*b03 + a11*b13 + a12*b23 + a13*b33,
     a20*b00 + a21*b10 + a22*b20 + a23*b30,
     a20*b01 + a21*b11 + a22*b21 + a23*b31,
     a20*b02 + a21*b12 + a22*b22 + a23*b32,
     a20*b03 + a21*b13 + a22*b23 + a23*b33,
     a30*b00 + a31*b10 + a32*b20 + a33*b30,
     a30*b01 + a31*b11 + a32*b21 + a33*b31,
     a30*b02 + a31*b12 + a32*b22 + a33*b32,
     a30*b03 + a31*b13 + a32*b23 + a33*b33]
  | _, _ => []

/-- The upper-left 2×2 rotation block of a row-major 4×4 matrix list:
the entries at row/column positions (0,0), (0,1), (1,0), (1,1). -/
noncomputable def rotationBlock (m : List ℝ) : List ℝ :=
  match m with
  | m00 :: m01 :: _ :: _ :: m10 :: m11 :: _ => [m00, m01, m10, m11]
  | _ => []

/-- A trivial stand-in for `sinf`/`cosf`/`sqrtf` in executable witnesses. -/
def wZero : ℚ → ℚ := fun _ => 0

/-- Witness environment: D3D11 host, every file missing. -/
def wEnvMissing : Env :=
  { files := fun _ => none
    vsOk := true
    psOk := true
    hostRenderer := UnityGfxRenderer.kUnityGfxRendererD3D11
    texDesc := fun _ => (0, 0) }

/-- Witness environment: D3D11 host, every file present with one byte,
texture descriptors 2×2. -/
def wEnvGood : Env :=
  { files := fun _ => some [1]
    vsOk := true
    psOk := true
    hostRenderer := UnityGfxRenderer.kUnityGfxRendererD3D11
    texDesc := fun _ => (2, 2) }

/-- Witness environment: host reports the null renderer. -/
def wEnvNull : Env :=
  { files := fun _ => none
    vsOk := true
    psOk := true
    hostRenderer := UnityGfxRenderer.kUnityGfxRendererNull
    texDesc := fun _ => (0, 0) }

/-- Witness state: D3D11 active, asset path set, no resources yet. -/
def wStateD3D : PluginState ℚ :=
  { initialState ℚ with
      s_UnityStreamingAssetsPath := "Assets"
      s_DeviceType := UnityGfxRenderer.kUnityGfxRendererD3D11
      g_D3D11Device := some () }

/-- One row of the texture fill, as a flat list of bytes (4 per pixel);
used to reason about `FillTextureFromCode` row by row. -/
def fillRow [FloorRing α] (sinf sqrtf : α → α) (t : α) (width yy : Nat) : List Int :=
  (List.range width).flatMap fun xx =>
    let vv := plasmaValue sinf sqrtf t xx yy
    [toByte vv, toByte vv, toByte vv, toByte vv]

/-- Leak scenario, step 1: Initialize with the D3D11 host renderer and
no files present (asset path still unset at this point). -/
def c2Step1 : PluginState ℚ × List (Eff ℚ) :=
  OnGraphicsDeviceEvent wEnvMissing UnityGfxDeviceEventType.kUnityGfxDeviceEventInitialize
    (initialState ℚ)

/-- Leak scenario, step 2: the host script supplies the asset path. -/
def c2Step2 : PluginState ℚ :=
  SetUnityStreamingAssetsPath "Assets" c2Step1.1

/-- Leak scenario, step 3: first render event (shader files missing,
so buffers and state objects are created but no shader). -/
def c2Step3 : PluginState ℚ × List (Eff ℚ) :=
  OnRenderEvent wZero wZero wZero wEnvMissing 1 c2Step2

/-- Leak scenario, step 4: second render event re-runs creation,
overwriting the handles created in step 3 without releasing them. -/
def c2Step4 : PluginState ℚ × List (Eff ℚ) :=
  OnRenderEvent wZero wZero wZero wEnvMissing 1 c2Step3.1

/-- Leak scenario, step 5: Shutdown releases only the currently held
handles. -/
def c2Step5 : PluginState ℚ × List (Eff ℚ) :=
  OnGraphicsDeviceEvent wEnvMissing UnityGfxDeviceEventType.kUnityGfxDeviceEventShutdown
    c2Step4.1

/-- All effects of the leak scenario between Initialize and Shutdown
inclusive. -/
def c2Trace : List (Eff ℚ) :=
  c2Step1.2 ++ c2Step3.2 ++ c2Step4.2 ++ c2Step5.2

/-! ### Helper lemmas -/

theorem countCmds_append (p : GpuCmd α → Bool) (l1 l2 : List (Eff α)) :
    countCmds p (l1 ++ l2) = countCmds p l1 + countCmds p l2 :=
  List.countP_append _ _ _

theorem countCmds_loadFile (p : GpuCmd α → Bool) (env : Env) (name : String) :
    countCmds p (LoadFileIntoBuffer (α := α) env name).2.2 = 0 := by
  unfold LoadFileIntoBuffer
  cases env.files name <;> simp [countCmds]

theorem safeRelease_fst (h : Option Nat) : (safeRelease (α := α) h).1 = none := by
  cases h <;> rfl

theorem countReleases_safeRelease (h : Option Nat) :
    countReleases (safeRelease (α := α) h).2 = optCount h := by
  cases h <;> simp [safeRelease, countReleases, countCmds, optCount, isReleaseCmd]

theorem countCmds_cons_log (p : GpuCmd α → Bool) (m : String) (l : List (Eff α)) :
    countCmds p (Eff.log m :: l) = countCmds p l := by
  simp [countCmds]

theorem countReleases_cons_log (m : String) (l : List (Eff α)) :
    countReleases (Eff.log m :: l) = countReleases l := by
  simp [countReleases, countCmds]

theorem countCmds_safeRelease (h : Option Nat) :
    countCmds (isReleaseCmd (α := α)) (safeRelease (α := α) h).2 = optCount h := by
  cases h <;> simp [safeRelease, countCmds, optCount, isReleaseCmd]

/-! ### Claims -/

/-- C9: `OnRenderEvent` is independent of its `eventID` argument: from
the same plugin state, any two event ids produce the same state change
and the same list of issued GPU commands. -/
theorem C9_eventID_unused {α : Type} [LinearOrderedField α] [FloorRing α]
    (cosf sinf sqrtf : α → α) (env : Env) (eventID1 eventID2 : Int) (s : PluginState α) :
    OnRenderEvent cosf sinf sqrtf env eventID1 s =
      OnRenderEvent cosf sinf sqrtf env eventID2 s := rfl

/-- C10: processing a BeforeReset or AfterReset device lifecycle event
leaves the whole plugin state unchanged; the only effect is the single
log line. -/
theorem C10_reset_events_are_pure_logs {α : Type} [LinearOrderedField α]
    (env : Env) (s : PluginState α) :
    OnGraphicsDeviceEvent env UnityGfxDeviceEventType.kUnityGfxDeviceEventBeforeReset s =
      (s, [Eff.log "OnGraphicsDeviceEvent(BeforeReset).\n"]) ∧
    OnGraphicsDeviceEvent env UnityGfxDeviceEventType.kUnityGfxDeviceEventAfterReset s =
      (s, [Eff.log "OnGraphicsDeviceEvent(AfterReset).\n"]) := by
  refine ⟨?_, ?_⟩ <;>
    · simp only [OnGraphicsDeviceEvent, DoEventGraphicsDeviceD3D11]
      split <;> simp

/-- C6: with the null backend, `OnRenderEvent` performs no GPU calls
and changes no plugin state, for every event id, and repeating it is
also a no-op. -/
theorem C6_render_noop_on_null_backend {α : Type} [LinearOrderedField α] [FloorRing α]
    (cosf sinf sqrtf : α → α) (env : Env) (eventID1 eventID2 : Int) (s : PluginState α)
    (h : s.s_DeviceType = UnityGfxRenderer.kUnityGfxRendererNull) :
    OnRenderEvent cosf sinf sqrtf env eventID1 s = (s, []) ∧
    OnRenderEvent cosf sinf sqrtf env eventID2
      (OnRenderEvent cosf sinf sqrtf env eventID1 s).1 = (s, []) := by
  have h1 : OnRenderEvent cosf sinf sqrtf env eventID1 s = (s, []) := by
    simp [OnRenderEvent, h]
  exact ⟨h1, by simp [h1, OnRenderEvent, h]⟩

/-- Witness for C6 at a concrete state and environment. -/
theorem C6_witness :
    OnRenderEvent wZero wZero wZero wEnvNull 7 (initialState ℚ) = (initialState ℚ, []) ∧
    OnRenderEvent wZero wZero wZero wEnvNull 9
      (OnRenderEvent wZero wZero wZero wEnvNull 7 (initialState ℚ)).1 = (initialState ℚ, []) :=
  C6_render_noop_on_null_backend wZero wZero wZero wEnvNull 7 9 (initialState ℚ) (by rfl)

theorem releaseAll_spec (s : PluginState α) :
    allHandlesNone (ReleaseD3D11Resources s).1 ∧
    countReleases (ReleaseD3D11Resources s).2 = liveHandles s ∧
    (ReleaseD3D11Resources s).1.s_DeviceType = s.s_DeviceType ∧
    (ReleaseD3D11Resources s).1.g_TexturePointer = s.g_TexturePointer := by
  unfold ReleaseD3D11Resources
  refine ⟨?_, ?_, rfl, rfl⟩
  · simp [allHandlesNone, safeRelease_fst]
  · simp only [countReleases, countCmds_append, countCmds_safeRelease, liveHandles,
      Nat.add_assoc]

/-- C8: a Shutdown device lifecycle event with the D3D11 backend active
sets the backend to None, clears the external texture handle, and
releases every member of the resource set: all handles are empty
afterwards and the number of `Release` calls equals the number of
previously live handles. -/
theorem C8_shutdown_clears_everything {α : Type} [LinearOrderedField α]
    (env : Env) (s : PluginState α)
    (h : s.s_DeviceType = UnityGfxRenderer.kUnityGfxRendererD3D11) :
    (OnGraphicsDeviceEvent env UnityGfxDeviceEventType.kUnityGfxDeviceEventShutdown s).1.s_DeviceType =
      UnityGfxRenderer.kUnityGfxRendererNull ∧
    (OnGraphicsDeviceEvent env UnityGfxDeviceEventType.kUnityGfxDeviceEventShutdown s).1.g_TexturePointer = none ∧
    allHandlesNone (OnGraphicsDeviceEvent env UnityGfxDeviceEventType.kUnityGfxDeviceEventShutdown s).1 ∧
    countReleases (OnGraphicsDeviceEvent env UnityGfxDeviceEventType.kUnityGfxDeviceEventShutdown s).2 =
      liveHandles s := by
  obtain ⟨h1, h2, h3, h4⟩ := releaseAll_spec (α := α)
    { s with s_DeviceType := UnityGfxRenderer.kUnityGfxRendererNull, g_TexturePointer := none }
  refine ⟨?_, ?_, ?_, ?_⟩ <;>
    simp only [OnGraphicsDeviceEvent, DoEventGraphicsDeviceD3D11, h] <;>
    simp [h1, h2, h3, h4, countCmds_cons_log, countReleases_cons_log, liveHandles]

/-- Witness for C8 at a concrete state and environment. -/
theorem C8_witness :
    (OnGraphicsDeviceEvent wEnvGood UnityGfxDeviceEventType.kUnityGfxDeviceEventShutdown wStateD3D).1.s_DeviceType =
      UnityGfxRenderer.kUnityGfxRendererNull ∧
    (OnGraphicsDeviceEvent wEnvGood UnityGfxDeviceEventType.kUnityGfxDeviceEventShutdown wStateD3D).1.g_TexturePointer = none ∧
    allHandlesNone (OnGraphicsDeviceEvent wEnvGood UnityGfxDeviceEventType.kUnityGfxDeviceEventShutdown wStateD3D).1 ∧
    countReleases (OnGraphicsDeviceEvent wEnvGood UnityGfxDeviceEventType.kUnityGfxDeviceEventShutdown wStateD3D).2 =
      liveHandles wStateD3D :=
  C8_shutdown_clears_everything wEnvGood wStateD3D (by rfl)

theorem ensure_preserves (env : Env) (s : PluginState α) :
    (EnsureD3D11ResourcesAreCreated env s).2.1.g_TexturePointer = s.g_TexturePointer ∧
    (EnsureD3D11ResourcesAreCreated env s).2.1.s_DeviceType = s.s_DeviceType ∧
    (EnsureD3D11ResourcesAreCreated env s).2.1.s_UnityStreamingAssetsPath =
      s.s_UnityStreamingAssetsPath ∧
    (EnsureD3D11ResourcesAreCreated env s).2.1.g_Time = s.g_Time := by
  simp only [EnsureD3D11ResourcesAreCreated]
  split_ifs <;> simp_all

set_option maxHeartbeats 1000000 in
theorem ensure_trace_no_render_cmds (env : Env) (s : PluginState α) :
    countCmds (isDrawCmd (α := α)) (EnsureD3D11ResourcesAreCreated env s).2.2 = 0 ∧
    countCmds (isTextureUpdateCmd (α := α)) (EnsureD3D11ResourcesAreCreated env s).2.2 = 0 := by
  cases hv : env.files (vertexShaderFile s.s_UnityStreamingAssetsPath) <;>
    cases hp : env.files (pixelShaderFile s.s_UnityStreamingAssetsPath) <;>
      (simp only [EnsureD3D11ResourcesAreCreated, LoadFileIntoBuffer, hv, hp]
       split_ifs <;>
         simp [countCmds_append, countCmds, isDrawCmd, isTextureUpdateCmd])

/-- C7: after `SetTextureFromUnity` with a null handle, the texture
pointer is null; every render event on a state with a null texture
pointer performs no texture upload, leaves the pointer null (so all
subsequent render events skip the fill too), and — when the backend is
D3D11 and resources report ready — still issues the draw call. -/
theorem C7_null_texture_skips_fill {α : Type} [LinearOrderedField α] [FloorRing α]
    (cosf sinf sqrtf : α → α) (env : Env) (eventID : Int) (s t : PluginState α)
    (ht : t.g_TexturePointer = none) :
    (SetTextureFromUnity none s).g_TexturePointer = none ∧
    countCmds (isTextureUpdateCmd (α := α)) (OnRenderEvent cosf sinf sqrtf env eventID t).2 = 0 ∧
    (OnRenderEvent cosf sinf sqrtf env eventID t).1.g_TexturePointer = none ∧
    (t.s_DeviceType = UnityGfxRenderer.kUnityGfxRendererD3D11 →
      (EnsureD3D11ResourcesAreCreated env t).1 = true →
      countCmds (isDrawCmd (α := α)) (OnRenderEvent cosf sinf sqrtf env eventID t).2 = 1) := by
  obtain ⟨hp1, hp2, hp3, hp4⟩ := ensure_preserves (α := α) env t
  obtain ⟨hd0, ht0⟩ := ensure_trace_no_render_cmds (α := α) env t
  rcases hE : EnsureD3D11ResourcesAreCreated env t with ⟨b, s1, tr⟩
  rw [hE] at hp1 hp2 hp3 hp4 hd0 ht0
  simp only at hp1 hp2 hp3 hp4 hd0 ht0
  rcases hdt : t.s_DeviceType with _ | _ | _
  · refine ⟨rfl, ?_, ?_, ?_⟩ <;> simp [OnRenderEvent, hdt, ht, countCmds]
  · refine ⟨rfl, ?_, ?_, ?_⟩ <;>
      simp [OnRenderEvent, DoRendering, SetDefaultGraphicsState, hdt, hE, ht] <;>
      cases b <;>
      simp_all [countCmds_append, countCmds, isTextureUpdateCmd, isDrawCmd]
  · refine ⟨rfl, ?_, ?_, ?_⟩ <;>
      simp [OnRenderEvent, DoRendering, SetDefaultGraphicsState, hdt, ht, countCmds]

/-- Witness for C7 at a concrete state and environment. -/
theorem C7_witness :
    (SetTextureFromUnity none (initialState ℚ)).g_TexturePointer = none ∧
    countCmds (isTextureUpdateCmd (α := ℚ))
      (OnRenderEvent wZero wZero wZero wEnvGood 3 wStateD3D).2 = 0 ∧
    (OnRenderEvent wZero wZero wZero wEnvGood 3 wStateD3D).1.g_TexturePointer = none ∧
    (wStateD3D.s_DeviceType = UnityGfxRenderer.kUnityGfxRendererD3D11 →
      (EnsureD3D11ResourcesAreCreated wEnvGood wStateD3D).1 = true →
      countCmds (isDrawCmd (α := ℚ))
        (OnRenderEvent wZero wZero wZero wEnvGood 3 wStateD3D).2 = 1) :=
  C7_null_texture_skips_fill wZero wZero wZero wEnvGood 3 (initialState ℚ) wStateD3D (by rfl)

theorem flatMap_range_length {β : Type} (f : Nat → List β) (k : Nat)
    (hk : ∀ i, (f i).length = k) (n : Nat) :
    ((List.range n).flatMap f).length = n * k := by
  induction n with
  | zero => simp
  | succ m ih =>
    rw [List.range_succ, List.flatMap_append]
    simp [ih, hk, Nat.succ_mul]

theorem flatMap_range_drop {β : Type} (f : Nat → List β) (k : Nat)
    (hk : ∀ i, (f i).length = k) :
    ∀ n j, j < n → ∃ tail, ((List.range n).flatMap f).drop (j * k) = f j ++ tail := by
  intro n
  induction n with
  | zero => exact fun j hj => absurd hj (Nat.not_lt_zero j)
  | succ m ih =>
    intro j hj
    have hlen : ((List.range m).flatMap f).length = m * k := flatMap_range_length f k hk m
    rw [List.range_succ, List.flatMap_append]
    rcases Nat.lt_succ_iff_lt_or_eq.mp hj with h | h
    · obtain ⟨t, ht⟩ := ih j h
      refine ⟨t ++ [m].flatMap f, ?_⟩
      rw [List.drop_append_eq_append_drop, ht, hlen,
        Nat.sub_eq_zero_of_le (Nat.mul_le_mul_right k h.le), List.drop_zero,
        List.append_assoc]
    · subst h
      refine ⟨[], ?_⟩
      rw [List.drop_append_eq_append_drop, List.drop_eq_nil_of_le (le_of_eq hlen), hlen,
        Nat.sub_self, List.drop_zero]
      simp

theorem flatMap_range_segment {β : Type} (f : Nat → List β) (k : Nat)
    (hk : ∀ i, (f i).length = k) (n j : Nat) (hj : j < n) :
    (((List.range n).flatMap f).drop (j * k)).take k = f j := by
  obtain ⟨tail, ht⟩ := flatMap_range_drop f k hk n j hj
  rw [ht, List.take_append_eq_append_take, hk j, Nat.sub_self, List.take_zero,
    List.append_nil, ← hk j, List.take_length]

theorem fillRow_length [FloorRing α] (sinf sqrtf : α → α) (t : α) (width yy : Nat) :
    (fillRow sinf sqrtf t width yy).length = width * 4 := by
  unfold fillRow
  exact flatMap_range_length
    (fun xx =>
      let vv := plasmaValue sinf sqrtf t xx yy
      [toByte vv, toByte vv, toByte vv, toByte vv]) 4 (fun _ => rfl) width

/-- C5: `FillTextureFromCode` is a pure function of (width, height,
time): it always produces the full tightly-packed `width*height*4`
byte buffer, and for every pixel (x, y) of the image all four channel
bytes equal the single plasma value (the truncated average of the four
sine waves) at that pixel coordinate and time. -/
theorem C5_fill_texture_pure {α : Type} [LinearOrderedField α] [FloorRing α]
    (sinf sqrtf : α → α) (time : α) (width height x y : Nat)
    (hx : x < width) (hy : y < height) :
    (FillTextureFromCode sinf sqrtf time width height).length = width * height * 4 ∧
    ((FillTextureFromCode sinf sqrtf time width height).drop ((y * width + x) * 4)).take 4 =
      List.replicate 4 (toByte (plasmaValue sinf sqrtf (time * 4) x y)) := by
  have hFill : FillTextureFromCode sinf sqrtf time width height =
      (List.range height).flatMap (fillRow sinf sqrtf (time * 4) width) := rfl
  have hrow : ∀ yy, (fillRow sinf sqrtf (time * 4) width yy).length = width * 4 :=
    fillRow_length sinf sqrtf (time * 4) width
  constructor
  · rw [hFill, flatMap_range_length _ (width * 4) hrow height]
    ring
  · rw [hFill]
    obtain ⟨tail, htail⟩ := flatMap_range_drop _ (width * 4) hrow height y hy
    have hidx : (y * width + x) * 4 = y * (width * 4) + x * 4 := by ring
    rw [hidx, ← List.drop_drop, htail, List.drop_append_eq_append_drop,
      List.take_append_eq_append_take, List.length_drop, hrow y]
    have hz : 4 - (width * 4 - x * 4) = 0 := by omega
    rw [hz, List.take_zero, List.append_nil]
    have hseg := flatMap_range_segment
      (fun xx => let vv := plasmaValue sinf sqrtf (time * 4) xx y
                 [toByte vv, toByte vv, toByte vv, toByte vv]) 4 (fun _ => rfl) width x hx
    simp only [fillRow]
    exact hseg

/-- Witness for C5 at a concrete input (2×2 texture, zero stand-ins
for the trigonometric functions, pixel (1,1)). -/
theorem C5_witness :
    (FillTextureFromCode wZero wZero 0 2 2).length = 2 * 2 * 4 ∧
    ((FillTextureFromCode wZero wZero 0 2 2).drop ((1 * 2 + 1) * 4)).take 4 =
      List.replicate 4 (toByte (plasmaValue wZero wZero (0 * 4) 1 1)) :=
  C5_fill_texture_pure wZero wZero 0 2 2 1 1 (by decide) (by decide)

/-- C4: the world matrix built by `OnRenderEvent` (with the real
`cos`/`sin`) is exactly the rotation about the viewing axis by the
current shared time, composed with the fixed depth-axis
scale/translate matrix; at time 0 it equals that fixed matrix (its
rotation block is the identity), and at time π its rotation block is
exactly minus the identity (hence certainly within any floating
tolerance of it). -/
theorem C4_world_matrix_rotation (t : ℝ) :
    worldMatrixAt Real.cos Real.sin t = mat4mul (specRotationZ t) specDepthTransform ∧
    worldMatrixAt Real.cos Real.sin 0 = specDepthTransform ∧
    rotationBlock (worldMatrixAt Real.cos Real.sin Real.pi) = [-1, 0, 0, -1] ∧
    rotationBlock (worldMatrixAt Real.cos Real.sin 0) = [1, 0, 0, 1] := by
  refine ⟨?_, ?_, ?_, ?_⟩ <;>
    simp [worldMatrixAt, mat4mul, specRotationZ, specDepthTransform, rotationBlock,
      Real.cos_pi, Real.sin_pi]

theorem loadFile_bytes (env : Env) (p : String) :
    (LoadFileIntoBuffer (α := α) env p).2.1 = fileBytes env p := by
  unfold LoadFileIntoBuffer fileBytes
  cases env.files p <;> rfl

theorem ensure_noop_when_created (env : Env) (t : PluginState α)
    (h : t.g_D3D11VertexShader.isSome) :
    EnsureD3D11ResourcesAreCreated env t = (true, t, []) := by
  simp [EnsureD3D11ResourcesAreCreated, h]

theorem ensure_false_iff (env : Env) (s : PluginState α) :
    (EnsureD3D11ResourcesAreCreated env s).1 = false ↔
      s.g_D3D11VertexShader = none ∧ s.s_UnityStreamingAssetsPath = "" := by
  rcases hvs : s.g_D3D11VertexShader with _ | v
  · by_cases hp : s.s_UnityStreamingAssetsPath = "" <;>
      simp [EnsureD3D11ResourcesAreCreated, hvs, hp]
  · simp [EnsureD3D11ResourcesAreCreated, hvs]

theorem ensure_shader_load_failure (env : Env) (s : PluginState α)
    (h0 : s.g_D3D11VertexShader = none) (h1 : s.s_UnityStreamingAssetsPath ≠ "")
    (h2 : shaderLoadFailed env s.s_UnityStreamingAssetsPath) :
    (EnsureD3D11ResourcesAreCreated env s).1 = true ∧
    (EnsureD3D11ResourcesAreCreated env s).2.1.g_D3D11VertexShader = none ∧
    Eff.log "Failed to load vertex or pixel shader.\n" ∈
      (EnsureD3D11ResourcesAreCreated env s).2.2 := by
  have hcond : ¬ (0 < (fileBytes env (vertexShaderFile s.s_UnityStreamingAssetsPath)).length ∧
      0 < (fileBytes env (pixelShaderFile s.s_UnityStreamingAssetsPath)).length) := by
    rcases h2 with h | h <;> simp [h]
  refine ⟨?_, ?_, ?_⟩ <;>
    simp [EnsureD3D11ResourcesAreCreated, h0, h1, loadFile_bytes, hcond]

theorem ensure_retries (env : Env) (t : PluginState α)
    (h0 : t.g_D3D11VertexShader = none) (h1 : t.s_UnityStreamingAssetsPath ≠ "") :
    Eff.gpu (GpuCmd.createBuffer t.nextId) ∈ (EnsureD3D11ResourcesAreCreated env t).2.2 := by
  simp [EnsureD3D11ResourcesAreCreated, h0, h1]

/-- C1 (amended): `EnsureD3D11ResourcesAreCreated` returns false for
exactly those states in which no shader program exists yet and the
asset path is unset — in particular it does return false whenever the
path is unset and no shader was created before.  When the asset path
is set but a shader file is missing or unloadable, the failure is
logged, the shader slot stays empty, and the next call re-attempts
creation (the failure is not cached) — but the call still returns
true, not false. -/
theorem C1_ensure_not_ready_reporting {α : Type} [LinearOrderedField α]
    (env : Env) (s : PluginState α)
    (h0 : s.g_D3D11VertexShader = none) (h1 : s.s_UnityStreamingAssetsPath ≠ "")
    (h2 : shaderLoadFailed env s.s_UnityStreamingAssetsPath) :
    (∀ t : PluginState α,
      (EnsureD3D11ResourcesAreCreated env t).1 = false ↔
        t.g_D3D11VertexShader = none ∧ t.s_UnityStreamingAssetsPath = "") ∧
    (EnsureD3D11ResourcesAreCreated env s).1 = true ∧
    (EnsureD3D11ResourcesAreCreated env s).2.1.g_D3D11VertexShader = none ∧
    Eff.log "Failed to load vertex or pixel shader.\n" ∈
      (EnsureD3D11ResourcesAreCreated env s).2.2 ∧
    Eff.gpu (GpuCmd.createBuffer ((EnsureD3D11ResourcesAreCreated env s).2.1.nextId)) ∈
      (EnsureD3D11ResourcesAreCreated env
        ((EnsureD3D11ResourcesAreCreated env s).2.1)).2.2 := by
  obtain ⟨ha, hb, hc⟩ := ensure_shader_load_failure env s h0 h1 h2
  refine ⟨fun t => ensure_false_iff env t, ha, hb, hc, ?_⟩
  refine ensure_retries env _ hb ?_
  rw [(ensure_preserves (α := α) env s).2.2.1]
  exact h1

/-- Witness for the amended C1 at concrete states: the call on the
pristine state (path unset, no shader) returns false, and the call on
the path-set state with missing shader files returns true while
leaving the shader uncreated, logging, and re-creating next call. -/
theorem C1_witness :
    (EnsureD3D11ResourcesAreCreated wEnvMissing (initialState ℚ)).1 = false ∧
    (EnsureD3D11ResourcesAreCreated wEnvMissing wStateD3D).1 = true ∧
    (EnsureD3D11ResourcesAreCreated wEnvMissing wStateD3D).2.1.g_D3D11VertexShader = none ∧
    Eff.log "Failed to load vertex or pixel shader.\n" ∈
      (EnsureD3D11ResourcesAreCreated wEnvMissing wStateD3D).2.2 ∧
    Eff.gpu (GpuCmd.createBuffer ((EnsureD3D11ResourcesAreCreated wEnvMissing wStateD3D).2.1.nextId)) ∈
      (EnsureD3D11ResourcesAreCreated wEnvMissing
        ((EnsureD3D11ResourcesAreCreated wEnvMissing wStateD3D).2.1)).2.2 := by
  have h := C1_ensure_not_ready_reporting wEnvMissing wStateD3D rfl (by decide) (by decide)
  exact ⟨(h.1 (initialState ℚ)).mpr ⟨rfl, rfl⟩, h.2.1, h.2.2.1, h.2.2.2.1, h.2.2.2.2⟩

/-- Counterexample to C1 as stated: with the asset path set but both
shader files missing, the call does not return false — it returns true
(while indeed leaving the shader program uncreated). -/
theorem C1_counterexample :
    wEnvMissing.files (vertexShaderFile wStateD3D.s_UnityStreamingAssetsPath) = none ∧
    wEnvMissing.files (pixelShaderFile wStateD3D.s_UnityStreamingAssetsPath) = none ∧
    wStateD3D.g_D3D11VertexShader = none ∧
    wStateD3D.s_UnityStreamingAssetsPath ≠ "" ∧
    ¬ ((EnsureD3D11ResourcesAreCreated wEnvMissing wStateD3D).1 = false) ∧
    (EnsureD3D11ResourcesAreCreated wEnvMissing wStateD3D).2.1.g_D3D11VertexShader = none := by
  refine ⟨rfl, rfl, rfl, by decide, by decide, by decide⟩

theorem ensure_success_creates (env : Env) (s : PluginState α)
    (h0 : s.g_D3D11VertexShader = none) (h1 : s.s_UnityStreamingAssetsPath ≠ "")
    (h2 : fileBytes env (vertexShaderFile s.s_UnityStreamingAssetsPath) ≠ [])
    (h3 : fileBytes env (pixelShaderFile s.s_UnityStreamingAssetsPath) ≠ [])
    (h4 : env.vsOk = true) (h5 : env.psOk = true) :
    (EnsureD3D11ResourcesAreCreated env s).2.1.g_D3D11VertexShader.isSome ∧
    countCreates (EnsureD3D11ResourcesAreCreated env s).2.2 = 8 := by
  rcases hfv : env.files (vertexShaderFile s.s_UnityStreamingAssetsPath) with _ | dv
  · exact absurd (by simp [fileBytes, hfv]) h2
  rcases hfp : env.files (pixelShaderFile s.s_UnityStreamingAssetsPath) with _ | dp
  · exact absurd (by simp [fileBytes, hfp]) h3
  have hdv : dv ≠ [] := by
    intro h
    exact h2 (by simp [fileBytes, hfv, h])
  have hdp : dp ≠ [] := by
    intro h
    exact h3 (by simp [fileBytes, hfp, h])
  constructor <;>
    simp [EnsureD3D11ResourcesAreCreated, LoadFileIntoBuffer, hfv, hfp, h0, h1, h4, h5,
      List.length_pos, hdv, hdp, countCreates, countCmds_append, countCmds, isCreateCmd]

/-- C3: `EnsureD3D11ResourcesAreCreated` is idempotent: it returns
true immediately — creating nothing and changing nothing — whenever
the shader program already exists; with an available asset path,
loadable shader files and succeeding device calls, one call performs
exactly the 8 resource creations of one resource set, and iterating
the call N = n+1 times produces exactly the state and effects of that
single first call. -/
theorem C3_ensure_idempotent {α : Type} [LinearOrderedField α]
    (env : Env) (s : PluginState α)
    (h0 : s.g_D3D11VertexShader = none) (h1 : s.s_UnityStreamingAssetsPath ≠ "")
    (h2 : fileBytes env (vertexShaderFile s.s_UnityStreamingAssetsPath) ≠ [])
    (h3 : fileBytes env (pixelShaderFile s.s_UnityStreamingAssetsPath) ≠ [])
    (h4 : env.vsOk = true) (h5 : env.psOk = true) :
    (∀ t : PluginState α, t.g_D3D11VertexShader.isSome →
      EnsureD3D11ResourcesAreCreated env t = (true, t, [])) ∧
    countCreates (EnsureD3D11ResourcesAreCreated env s).2.2 = 8 ∧
    (∀ n, ensureIter env (n + 1) s =
      ((EnsureD3D11ResourcesAreCreated env s).2.1,
       (EnsureD3D11ResourcesAreCreated env s).2.2)) := by
  obtain ⟨hsome, hcount⟩ := ensure_success_creates env s h0 h1 h2 h3 h4 h5
  have hiter : ∀ n (t : PluginState α), t.g_D3D11VertexShader.isSome →
      ensureIter env n t = (t, []) := by
    intro n
    induction n with
    | zero => intro t ht; rfl
    | succ m ih =>
      intro t ht
      simp [ensureIter, ensure_noop_when_created env t ht, ih t ht]
  refine ⟨fun t ht => ensure_noop_when_created env t ht, hcount, fun n => ?_⟩
  simp [ensureIter, hiter n _ hsome]

/-- Witness for C3: one call creates the 8 resources; the second call
is an exact no-op; three iterated calls equal the first call. -/
theorem C3_witness :
    EnsureD3D11ResourcesAreCreated wEnvGood
        (EnsureD3D11ResourcesAreCreated wEnvGood wStateD3D).2.1 =
      (true, (EnsureD3D11ResourcesAreCreated wEnvGood wStateD3D).2.1, []) ∧
    countCreates (EnsureD3D11ResourcesAreCreated wEnvGood wStateD3D).2.2 = 8 ∧
    ensureIter wEnvGood 3 wStateD3D =
      ((EnsureD3D11ResourcesAreCreated wEnvGood wStateD3D).2.1,
       (EnsureD3D11ResourcesAreCreated wEnvGood wStateD3D).2.2) := by
  have h := C3_ensure_idempotent wEnvGood wStateD3D rfl (by decide) (by decide) (by decide)
    rfl rfl
  exact ⟨h.1 _ (by decide), h.2.1, h.2.2 2⟩

/-- Counterexample to C2 as stated: between one Initialize and its
matching Shutdown, with the asset path set after Initialize and two
render events whose shader loads fail, the plugin performs 10 resource
creations but only 5 releases — the handles created by the first
render event are overwritten without being released. -/
theorem C2_counterexample :
    countCreates c2Trace = 10 ∧ countReleases c2Trace = 5 ∧
    countCreates c2Trace ≠ countReleases c2Trace := by
  refine ⟨by decide, by decide, by decide⟩

set_option maxHeartbeats 1000000 in
theorem ensure_trace_no_releases (env : Env) (s : PluginState α) :
    countReleases (EnsureD3D11ResourcesAreCreated env s).2.2 = 0 := by
  cases hv : env.files (vertexShaderFile s.s_UnityStreamingAssetsPath) <;>
    cases hp : env.files (pixelShaderFile s.s_UnityStreamingAssetsPath) <;>
      (simp only [EnsureD3D11ResourcesAreCreated, LoadFileIntoBuffer, hv, hp]
       split_ifs <;>
         simp [countReleases, countCmds_append, countCmds, isReleaseCmd])

theorem countCreates_safeRelease (h : Option Nat) :
    countCmds (isCreateCmd (α := α)) (safeRelease (α := α) h).2 = 0 := by
  cases h <;> simp [safeRelease, countCmds, isCreateCmd]

theorem release_trace_no_creates (s : PluginState α) :
    countCreates (ReleaseD3D11Resources s).2 = 0 := by
  simp only [ReleaseD3D11Resources, countCreates, countCmds_append, countCreates_safeRelease]

theorem liveHandles_of_clean (s : PluginState α) (h : allHandlesNone s) :
    liveHandles s = 0 := by
  obtain ⟨h1, h2, h3, h4, h5, h6, h7, h8⟩ := h
  simp [liveHandles, optCount, h1, h2, h3, h4, h5, h6, h7, h8]

set_option maxHeartbeats 1000000 in
theorem ensure_creates_eq_live (env : Env) (s : PluginState α) (h : allHandlesNone s) :
    countCreates (EnsureD3D11ResourcesAreCreated env s).2.2 =
      liveHandles (EnsureD3D11ResourcesAreCreated env s).2.1 := by
  obtain ⟨h1, h2, h3, h4, h5, h6, h7, h8⟩ := h
  cases hfv : env.files (vertexShaderFile s.s_UnityStreamingAssetsPath) <;>
    cases hfp : env.files (pixelShaderFile s.s_UnityStreamingAssetsPath) <;>
      (simp only [EnsureD3D11ResourcesAreCreated, LoadFileIntoBuffer, hfv, hfp]
       split_ifs <;>
         simp_all [countCreates, countCmds_append, countCmds, isCreateCmd,
           liveHandles, optCount])

set_option maxHeartbeats 1000000 in
theorem ensure_result_vs (env : Env) (s : PluginState α)
    (h0 : s.g_D3D11VertexShader = none) :
    (EnsureD3D11ResourcesAreCreated env s).2.1.g_D3D11VertexShader.isSome =
      (if s.s_UnityStreamingAssetsPath = "" then false
       else if 0 < (fileBytes env (vertexShaderFile s.s_UnityStreamingAssetsPath)).length ∧
               0 < (fileBytes env (pixelShaderFile s.s_UnityStreamingAssetsPath)).length then
         env.vsOk
       else false) := by
  simp only [EnsureD3D11ResourcesAreCreated, loadFile_bytes, h0, Option.isSome_none]
  split_ifs <;> simp_all

theorem ensure_clean_behavior (env : Env) (a b : PluginState α)
    (ha : allHandlesNone a) (hb : allHandlesNone b)
    (hpath : a.s_UnityStreamingAssetsPath = b.s_UnityStreamingAssetsPath) :
    (EnsureD3D11ResourcesAreCreated env a).1 = (EnsureD3D11ResourcesAreCreated env b).1 ∧
    (EnsureD3D11ResourcesAreCreated env a).2.1.g_D3D11VertexShader.isSome =
      (EnsureD3D11ResourcesAreCreated env b).2.1.g_D3D11VertexShader.isSome := by
  have ha3 := ha.2.2.1
  have hb3 := hb.2.2.1
  constructor
  · have fa := ensure_false_iff env a
    have fb := ensure_false_iff env b
    cases hA : (EnsureD3D11ResourcesAreCreated env a).1 <;>
      cases hB : (EnsureD3D11ResourcesAreCreated env b).1
    · rfl
    · obtain ⟨_, hpa⟩ := fa.mp hA
      have : (EnsureD3D11ResourcesAreCreated env b).1 = false :=
        fb.mpr ⟨hb3, by rw [← hpath]; exact hpa⟩
      simp [this] at hB
    · obtain ⟨_, hpb⟩ := fb.mp hB
      have : (EnsureD3D11ResourcesAreCreated env a).1 = false :=
        fa.mpr ⟨ha3, by rw [hpath]; exact hpb⟩
      simp [this] at hA
    · rfl
  · rw [ensure_result_vs env a ha3, ensure_result_vs env b hb3, hpath]

theorem countCreates_cons_log (m : String) (l : List (Eff α)) :
    countCreates (Eff.log m :: l) = countCreates l := by
  simp [countCreates, countCmds]

theorem init_unfold (env : Env) (s : PluginState α)
    (hhr : env.hostRenderer = UnityGfxRenderer.kUnityGfxRendererD3D11) :
    OnGraphicsDeviceEvent env UnityGfxDeviceEventType.kUnityGfxDeviceEventInitialize s =
      ((EnsureD3D11ResourcesAreCreated env
          { s with s_DeviceType := UnityGfxRenderer.kUnityGfxRendererD3D11,
                   g_D3D11Device := some () }).2.1,
       Eff.log "OnGraphicsDeviceEvent(Initialize).\n" ::
         (EnsureD3D11ResourcesAreCreated env
           { s with s_DeviceType := UnityGfxRenderer.kUnityGfxRendererD3D11,
                    g_D3D11Device := some () }).2.2) := by
  simp [OnGraphicsDeviceEvent, DoEventGraphicsDeviceD3D11, hhr]

theorem shutdown_unfold (env : Env) (w : PluginState α)
    (hw : w.s_DeviceType = UnityGfxRenderer.kUnityGfxRendererD3D11) :
    OnGraphicsDeviceEvent env UnityGfxDeviceEventType.kUnityGfxDeviceEventShutdown w =
      ((ReleaseD3D11Resources
          { w with s_DeviceType := UnityGfxRenderer.kUnityGfxRendererNull,
                   g_TexturePointer := none }).1,
       Eff.log "OnGraphicsDeviceEvent(Shutdown).\n" ::
         (ReleaseD3D11Resources
           { w with s_DeviceType := UnityGfxRenderer.kUnityGfxRendererNull,
                    g_TexturePointer := none }).2) := by
  simp [OnGraphicsDeviceEvent, DoEventGraphicsDeviceD3D11, hw]

theorem shutdown_clean (env : Env) (w : PluginState α)
    (hw : w.s_DeviceType = UnityGfxRenderer.kUnityGfxRendererD3D11) :
    allHandlesNone
      (OnGraphicsDeviceEvent env UnityGfxDeviceEventType.kUnityGfxDeviceEventShutdown w).1 ∧
    (OnGraphicsDeviceEvent env UnityGfxDeviceEventType.kUnityGfxDeviceEventShutdown
        w).1.s_UnityStreamingAssetsPath = w.s_UnityStreamingAssetsPath := by
  rw [shutdown_unfold env w hw]
  obtain ⟨hr1, hr2, hr3, hr4⟩ := releaseAll_spec (α := α)
    { w with s_DeviceType := UnityGfxRenderer.kUnityGfxRendererNull,
             g_TexturePointer := none }
  refine ⟨hr1, ?_⟩
  simp [ReleaseD3D11Resources]

theorem init_shutdown_balanced (env : Env) (s : PluginState α)
    (hclean : allHandlesNone s) :
    countCreates
        ((OnGraphicsDeviceEvent env UnityGfxDeviceEventType.kUnityGfxDeviceEventInitialize s).2 ++
         (OnGraphicsDeviceEvent env UnityGfxDeviceEventType.kUnityGfxDeviceEventShutdown
           (OnGraphicsDeviceEvent env UnityGfxDeviceEventType.kUnityGfxDeviceEventInitialize s).1).2) =
      countReleases
        ((OnGraphicsDeviceEvent env UnityGfxDeviceEventType.kUnityGfxDeviceEventInitialize s).2 ++
         (OnGraphicsDeviceEvent env UnityGfxDeviceEventType.kUnityGfxDeviceEventShutdown
           (OnGraphicsDeviceEvent env UnityGfxDeviceEventType.kUnityGfxDeviceEventInitialize s).1).2) ∧
    allHandlesNone
      (OnGraphicsDeviceEvent env UnityGfxDeviceEventType.kUnityGfxDeviceEventShutdown
        (OnGraphicsDeviceEvent env UnityGfxDeviceEventType.kUnityGfxDeviceEventInitialize s).1).1 := by
  rcases hhr : env.hostRenderer with _ | _ | _
  · constructor
    · simp [OnGraphicsDeviceEvent, DoEventGraphicsDeviceD3D11, hhr,
        countCreates, countReleases, countCmds]
    · simp only [OnGraphicsDeviceEvent, DoEventGraphicsDeviceD3D11, hhr]
      simp only [reduceCtorEq, if_false, reduceIte]
      exact hclean
  · rw [init_unfold env s hhr]
    set X : PluginState α :=
      { s with s_DeviceType := UnityGfxRenderer.kUnityGfxRendererD3D11,
               g_D3D11Device := some () } with hX
    set E := EnsureD3D11ResourcesAreCreated env X with hE
    have hcleanX : allHandlesNone X := hclean
    have hlive : countCreates E.2.2 = liveHandles E.2.1 := ensure_creates_eq_live env X hcleanX
    have hnorel : countReleases E.2.2 = 0 := ensure_trace_no_releases env X
    have hdt : E.2.1.s_DeviceType = UnityGfxRenderer.kUnityGfxRendererD3D11 := by
      rw [hE, (ensure_preserves (α := α) env X).2.1]
    dsimp only
    rw [shutdown_unfold env E.2.1 hdt]
    set Y : PluginState α :=
      { E.2.1 with s_DeviceType := UnityGfxRenderer.kUnityGfxRendererNull,
                   g_TexturePointer := none } with hY
    obtain ⟨hr1, hr2, hr3, hr4⟩ := releaseAll_spec (α := α) Y
    have hnc : countCreates (ReleaseD3D11Resources Y).2 = 0 := release_trace_no_creates Y
    have hliveY : liveHandles Y = liveHandles E.2.1 := by
      simp [liveHandles, hY]
    constructor
    · rw [List.cons_append, countCreates_cons_log, countReleases_cons_log,
        countCreates.eq_def, countReleases.eq_def, countCmds_append, countCmds_append]
      rw [← countCreates.eq_def, ← countCreates.eq_def, ← countReleases.eq_def,
        ← countReleases.eq_def]
      rw [countCreates_cons_log, countReleases_cons_log, hlive, hnorel, hnc, hr2, hliveY]
      omega
    · exact hr1
  · constructor
    · simp [OnGraphicsDeviceEvent, DoEventGraphicsDeviceD3D11, hhr,
        countCreates, countReleases, countCmds]
    · simp only [OnGraphicsDeviceEvent, DoEventGraphicsDeviceD3D11, hhr]
      simp only [reduceCtorEq, if_false, reduceIte]
      exact hclean

/-- C2 (amended): an Initialize/Shutdown pair starting from a state
with no live GPU handles — i.e. one in which resource creation runs at
most once, as when no render events intervene — releases exactly as
many resources as it creates and ends with every handle empty.  (As
stated, the claim fails: re-entered creation after a failed shader
load overwrites live handles without releasing them, see the
counterexample.)  Moreover Shutdown then Initialize reproduces the
ready/not-ready behaviour of a fresh start: after Shutdown all handles
are empty, and resource creation from that state returns the same
result, and creates a shader program under exactly the same
conditions, as from the pristine initial state with the same asset
path. -/
theorem C2_lifecycle_balance_and_reset {α : Type} [LinearOrderedField α]
    (env : Env) (s u : PluginState α) (p : String)
    (hclean : allHandlesNone s)
    (hu : u.s_DeviceType = UnityGfxRenderer.kUnityGfxRendererD3D11) :
    countCreates
        ((OnGraphicsDeviceEvent env UnityGfxDeviceEventType.kUnityGfxDeviceEventInitialize s).2 ++
         (OnGraphicsDeviceEvent env UnityGfxDeviceEventType.kUnityGfxDeviceEventShutdown
           (OnGraphicsDeviceEvent env UnityGfxDeviceEventType.kUnityGfxDeviceEventInitialize s).1).2) =
      countReleases
        ((OnGraphicsDeviceEvent env UnityGfxDeviceEventType.kUnityGfxDeviceEventInitialize s).2 ++
         (OnGraphicsDeviceEvent env UnityGfxDeviceEventType.kUnityGfxDeviceEventShutdown
           (OnGraphicsDeviceEvent env UnityGfxDeviceEventType.kUnityGfxDeviceEventInitialize s).1).2) ∧
    allHandlesNone
      (OnGraphicsDeviceEvent env UnityGfxDeviceEventType.kUnityGfxDeviceEventShutdown
        (OnGraphicsDeviceEvent env UnityGfxDeviceEventType.kUnityGfxDeviceEventInitialize s).1).1 ∧
    allHandlesNone
      (OnGraphicsDeviceEvent env UnityGfxDeviceEventType.kUnityGfxDeviceEventShutdown u).1 ∧
    (EnsureD3D11ResourcesAreCreated env (SetUnityStreamingAssetsPath p
        (OnGraphicsDeviceEvent env UnityGfxDeviceEventType.kUnityGfxDeviceEventShutdown u).1)).1 =
      (EnsureD3D11ResourcesAreCreated env
        (SetUnityStreamingAssetsPath p (initialState α))).1 ∧
    (EnsureD3D11ResourcesAreCreated env (SetUnityStreamingAssetsPath p
        (OnGraphicsDeviceEvent env
          UnityGfxDeviceEventType.kUnityGfxDeviceEventShutdown u).1)).2.1.g_D3D11VertexShader.isSome =
      (EnsureD3D11ResourcesAreCreated env
        (SetUnityStreamingAssetsPath p (initialState α))).2.1.g_D3D11VertexShader.isSome := by
  obtain ⟨hb1, hb2⟩ := init_shutdown_balanced env s hclean
  obtain ⟨hs1, hs2⟩ := shutdown_clean env u hu
  have hA : allHandlesNone (SetUnityStreamingAssetsPath p
      (OnGraphicsDeviceEvent env UnityGfxDeviceEventType.kUnityGfxDeviceEventShutdown u).1) := hs1
  have hB : allHandlesNone (SetUnityStreamingAssetsPath p (initialState α)) :=
    ⟨rfl, rfl, rfl, rfl, rfl, rfl, rfl, rfl⟩
  obtain ⟨hc1, hc2⟩ := ensure_clean_behavior env _ _ hA hB rfl
  exact ⟨hb1, hb2, hs1, hc1, hc2⟩

/-- Witness for the amended C2 at a concrete environment and states. -/
theorem C2_witness :
    countCreates
        ((OnGraphicsDeviceEvent wEnvGood UnityGfxDeviceEventType.kUnityGfxDeviceEventInitialize
            (initialState ℚ)).2 ++
         (OnGraphicsDeviceEvent wEnvGood UnityGfxDeviceEventType.kUnityGfxDeviceEventShutdown
           (OnGraphicsDeviceEvent wEnvGood UnityGfxDeviceEventType.kUnityGfxDeviceEventInitialize
             (initialState ℚ)).1).2) =
      countReleases
        ((OnGraphicsDeviceEvent wEnvGood UnityGfxDeviceEventType.kUnityGfxDeviceEventInitialize
            (initialState ℚ)).2 ++
         (OnGraphicsDeviceEvent wEnvGood UnityGfxDeviceEventType.kUnityGfxDeviceEventShutdown
           (OnGraphicsDeviceEvent wEnvGood UnityGfxDeviceEventType.kUnityGfxDeviceEventInitialize
             (initialState ℚ)).1).2) ∧
    allHandlesNone
      (OnGraphicsDeviceEvent wEnvGood UnityGfxDeviceEventType.kUnityGfxDeviceEventShutdown
        (OnGraphicsDeviceEvent wEnvGood UnityGfxDeviceEventType.kUnityGfxDeviceEventInitialize
          (initialState ℚ)).1).1 ∧
    allHandlesNone
      (OnGraphicsDeviceEvent wEnvGood UnityGfxDeviceEventType.kUnityGfxDeviceEventShutdown
        wStateD3D).1 ∧
    (EnsureD3D11ResourcesAreCreated wEnvGood (SetUnityStreamingAssetsPath "Assets"
        (OnGraphicsDeviceEvent wEnvGood UnityGfxDeviceEventType.kUnityGfxDeviceEventShutdown
          wStateD3D).1)).1 =
      (EnsureD3D11ResourcesAreCreated wEnvGood
        (SetUnityStreamingAssetsPath "Assets" (initialState ℚ))).1 ∧
    (EnsureD3D11ResourcesAreCreated wEnvGood (SetUnityStreamingAssetsPath "Assets"
        (OnGraphicsDeviceEvent wEnvGood UnityGfxDeviceEventType.kUnityGfxDeviceEventShutdown
          wStateD3D).1)).2.1.g_D3D11VertexShader.isSome =
      (EnsureD3D11ResourcesAreCreated wEnvGood
        (SetUnityStreamingAssetsPath "Assets" (initialState ℚ))).2.1.g_D3D11VertexShader.isSome :=
  C2_lifecycle_balance_and_reset wEnvGood (initialState ℚ) wStateD3D "Assets"
    (by decide) (by rfl)
